import Mathlib

/-!
Verification of the HypothesisAI orchestration core.

This file is a shallow embedding of the repository's workflow state machine
(`app/core/workflow.py`, `app/core/state_management.py`), the supervisor
agent (`app/agents/supervisor.py`), the literature-hunter worker skeleton
(`app/agents/literature_hunter.py`) and the preprint aggregator's
deduplication and ranking (`src/agent/tools/preprint_apis.py`).

Modelling conventions:
* Python floats become `ℚ` (exact rationals); no rounding is modelled.
* Wall-clock timestamps (`started_at`, `updated_at`, `completed_at`) are
  modelled out; the elapsed-seconds value used by the supervisor's timeout
  check is passed to `process` as an explicit parameter.
* The supervisor's mutable `self.retry_counts` dict (keyed by workflow id
  and agent) is threaded explicitly as a function `RetryCounts`.
* Exceptions cannot arise inside the pure embedding; the literature
  hunter's fallible external search/LLM pipeline is passed in as an
  `Except` value, and the `try/except` skeleton is embedded around it.
* `datetime` values in paper records are modelled at day granularity as
  integers (`date_published` is a day number, `now` a day number), so that
  `(now - date_published).days` becomes integer subtraction.
-/

/-! ### Enums (`app/state/enums.py`) -/

inductive AgentType where
  | supervisor
  | literature_hunter
  | knowledge_synthesizer
  | hypothesis_generator
  | methodology_designer
  | validation
deriving DecidableEq, Repr, Fintype

/-- The `.value` string of the Python `str`-enum `AgentType`. -/
def AgentType.value : AgentType → String
  | .supervisor => "supervisor"
  | .literature_hunter => "literature_hunter"
  | .knowledge_synthesizer => "knowledge_synthesizer"
  | .hypothesis_generator => "hypothesis_generator"
  | .methodology_designer => "methodology_designer"
  | .validation => "validation"

inductive WorkflowStatus where
  | initialized
  | searching
  | synthesizing
  | generating
  | validating
  | completed
  | failed
deriving DecidableEq, Repr, Fintype

/-! ### Schemas (`app/schemas/*.py`), as stored in the state dicts -/

/-- `app/schemas/papers.py` `Paper` (stored in the state as a dict). -/
structure Paper where
  id : String
  title : String
  abstract : String
  authors : List String
  year : Option Int := none
  doi : Option String := none
  url : Option String := none
  relevance_score : ℚ := 0
deriving DecidableEq, Repr

/-- The synthesis dict consumed by the supervisor (`patterns`,
`key_findings`, `research_gaps`, `total_papers_analyzed`); pattern entries
are opaque to the supervisor, which only counts them. -/
structure Synthesis where
  patterns : List String
  key_findings : List String
  research_gaps : List String
  total_papers_analyzed : Nat
deriving DecidableEq, Repr

/-- Hypothesis dict; the supervisor reads only `confidence_score`
(`h.get("confidence_score", 0)`). -/
structure Hypothesis where
  confidence_score : ℚ := 0
deriving DecidableEq, Repr

/-- Methodology dict; opaque to the supervisor, which only tests for
presence. -/
structure Methodology where
  name : String
deriving DecidableEq, Repr

/-- `app/schemas/validation.py` `ValidationResult`; the supervisor reads
only `is_valid`. -/
structure ValidationResult where
  hypothesis_id : String
  is_valid : Bool
deriving DecidableEq, Repr

/-- One entry of the `execution_history` list appended by
`SupervisorAgent._apply_decision` (timestamp modelled out). -/
structure ExecutionRecord where
  agent : String
  next_agent : Option String
  should_continue : Bool
  reason : String
deriving DecidableEq, Repr

/-- `app/schemas/state.py` `ResearchState` (timestamps modelled out;
`execution_history`, which Python adds lazily, starts as `[]`). Python
stores `current_agent` sometimes as an `AgentType` str-enum and sometimes
as a plain string; f-string formatting renders both as the value string,
so it is modelled as `String`. -/
structure ResearchState where
  workflow_id : String
  status : WorkflowStatus
  current_agent : String
  query : String
  max_papers : Nat
  papers : List Paper
  synthesis : Option Synthesis
  hypotheses : List Hypothesis
  methodologies : List Methodology
  validation_results : List ValidationResult
  errors : List String
  should_continue : Bool
  execution_history : List ExecutionRecord := []
deriving DecidableEq, Repr

/-- `app/schemas/state.py` `SupervisorDecision`. -/
structure SupervisorDecision where
  next_agent : Option AgentType := none
  should_continue : Bool := true
  reason : String := ""
deriving DecidableEq, Repr

/-! ### `app/core/state_management.py` -/

/-- `create_initial_state` (the `uuid4()` workflow id is passed in;
timestamps modelled out). -/
def create_initial_state (workflow_id : String) (query : String)
    (max_papers : Nat := 50) : ResearchState :=
  { workflow_id := workflow_id
    status := WorkflowStatus.initialized
    current_agent := AgentType.value AgentType.supervisor
    query := query
    max_papers := max_papers
    papers := []
    synthesis := none
    hypotheses := []
    methodologies := []
    validation_results := []
    errors := []
    should_continue := true }

/-- `update_state_status` (the `updated_at` timestamp write is modelled
out). -/
def update_state_status (state : ResearchState) (status : WorkflowStatus)
    (agent : String) : ResearchState :=
  { state with status := status, current_agent := agent }

/-- `add_error`: appends the stage-tagged message
`"[{current_agent}] {error}"`. -/
def add_error (state : ResearchState) (error : String) : ResearchState :=
  { state with
      errors := state.errors ++ ["[" ++ state.current_agent ++ "] " ++ error] }

/-- `is_workflow_complete`. -/
def is_workflow_complete (state : ResearchState) : Bool :=
  state.status = WorkflowStatus.completed ||
  state.status = WorkflowStatus.failed ||
  !state.should_continue

/-! ### `app/core/workflow.py` -/

/-- `VALID_TRANSITIONS` adjacency table. -/
def VALID_TRANSITIONS : WorkflowStatus → List WorkflowStatus
  | .initialized => [.searching, .failed]
  | .searching => [.synthesizing, .failed]
  | .synthesizing => [.generating, .failed]
  | .generating => [.validating, .failed]
  | .validating => [.completed, .failed]
  | .completed => []
  | .failed => []

/-- `is_valid_transition`. -/
def is_valid_transition (current next : WorkflowStatus) : Bool :=
  (VALID_TRANSITIONS current).contains next

/-! ### Supervisor agent (`app/agents/supervisor.py`) -/

/-- Configuration of `SupervisorAgent.__init__` (retry limits and quality
thresholds; `max_duration_seconds` comes from `self.config`). -/
structure SupervisorConfig where
  max_retries : AgentType → Nat
  min_papers : Nat
  min_patterns : Nat
  min_hypotheses : Nat
  min_confidence : ℚ
  max_errors : Nat
  max_duration_seconds : Option Nat

/-- The constructor defaults of `SupervisorAgent.__init__`. The default
`max_retries` dict has no `SUPERVISOR` key and that key is never read; it
is modelled as `0`. `min_confidence` is the source's `0.5`. -/
def defaultConfig : SupervisorConfig :=
  { max_retries := fun a =>
      match a with
      | .supervisor => 0
      | .literature_hunter => 3
      | .knowledge_synthesizer => 2
      | .hypothesis_generator => 2
      | .methodology_designer => 2
      | .validation => 1
    min_papers := 5
    min_patterns := 2
    min_hypotheses := 1
    min_confidence := mkRat 1 2
    max_errors := 5
    max_duration_seconds := none }

/-- `self.retry_counts`: per workflow id, per agent retry counter; missing
keys read as 0 (`dict.get(agent, 0)`). -/
def RetryCounts := String → AgentType → Nat

/-- The empty `self.retry_counts = {}`. -/
def emptyRC : RetryCounts := fun _ _ => 0

/-- Read a retry counter (`self.retry_counts[wid].get(agent, 0)`). -/
def getRetry (rc : RetryCounts) (wid : String) (a : AgentType) : Nat :=
  rc wid a

/-- Write a retry counter (`self.retry_counts[wid][agent] = n`). -/
def setRetry (rc : RetryCounts) (wid : String) (a : AgentType) (n : Nat) :
    RetryCounts :=
  fun w b => if w = wid ∧ b = a then n else rc w b

namespace SupervisorAgent

/-- `_handle_search_results`: routing after literature search. Mutates
`state["max_papers"]` and the literature retry counter on the retry
branch. -/
def handle_search_results (cfg : SupervisorConfig) (rc : RetryCounts)
    (state : ResearchState) :
    SupervisorDecision × ResearchState × RetryCounts :=
  let paper_count := state.papers.length
  let min_papers := cfg.min_papers
  if paper_count ≥ min_papers then
    (⟨some AgentType.knowledge_synthesizer, true,
      "Sufficient papers found (" ++ toString paper_count ++ ")"⟩,
     state, rc)
  else
    let current_retries :=
      getRetry rc state.workflow_id AgentType.literature_hunter
    if current_retries < cfg.max_retries AgentType.literature_hunter then
      let rc' := setRetry rc state.workflow_id AgentType.literature_hunter
        (current_retries + 1)
      let state' := { state with max_papers := min (state.max_papers * 2) 200 }
      (⟨some AgentType.literature_hunter, true,
        "Retrying search with expanded parameters (attempt " ++
          toString (current_retries + 1) ++ ")"⟩,
       state', rc')
    else if paper_count > 0 then
      (⟨some AgentType.knowledge_synthesizer, true,
        "Proceeding with " ++ toString paper_count ++ " papers after max retries"⟩,
       state, rc)
    else
      (⟨none, false, "No papers found after maximum retries"⟩, state, rc)

/-- `_handle_synthesis_results`: routing after synthesis. On exhausted
retries with no synthesis it installs the minimal placeholder synthesis;
on the poor-quality branch it sets `max_papers := 50`. -/
def handle_synthesis_results (cfg : SupervisorConfig) (rc : RetryCounts)
    (state : ResearchState) :
    SupervisorDecision × ResearchState × RetryCounts :=
  match state.synthesis with
  | none =>
    let current_retries :=
      getRetry rc state.workflow_id AgentType.knowledge_synthesizer
    if current_retries < cfg.max_retries AgentType.knowledge_synthesizer then
      (⟨some AgentType.knowledge_synthesizer, true,
        "Retrying synthesis (attempt " ++ toString (current_retries + 1) ++ ")"⟩,
       state,
       setRetry rc state.workflow_id AgentType.knowledge_synthesizer
         (current_retries + 1))
    else
      let state' := { state with
        synthesis := some
          { patterns := []
            key_findings := ["Unable to synthesize patterns"]
            research_gaps := ["Further analysis needed"]
            total_papers_analyzed := state.papers.length } }
      (⟨some AgentType.hypothesis_generator, true,
        "Proceeding with minimal synthesis after retries"⟩, state', rc)
  | some synthesis =>
    let patterns := synthesis.patterns
    let gaps := synthesis.research_gaps
    if patterns.length ≥ cfg.min_patterns ∨ gaps.length > 0 then
      (⟨some AgentType.hypothesis_generator, true,
        "Good synthesis with " ++ toString patterns.length ++
          " patterns and " ++ toString gaps.length ++ " gaps"⟩,
       state, rc)
    else if state.papers.length < 20 then
      let state' := { state with max_papers := 50 }
      (⟨some AgentType.literature_hunter, true,
        "Poor synthesis - getting more papers"⟩, state', rc)
    else
      (⟨some AgentType.hypothesis_generator, true,
        "Proceeding with limited synthesis"⟩, state, rc)

/-- `_validate_hypotheses_quality`: count threshold then average
confidence threshold. -/
def validate_hypotheses_quality (cfg : SupervisorConfig)
    (hypotheses : List Hypothesis) : Bool :=
  if hypotheses.length < cfg.min_hypotheses then false
  else
    decide (cfg.min_confidence ≤
      (hypotheses.map (fun h => h.confidence_score)).sum /
        (hypotheses.length : ℚ))

/-- `_handle_generation_phase`: routing between hypothesis generation,
methodology design and validation. The source's final "unexpected state"
return is unreachable (the three if-branches are exhaustive) and is not
represented. -/
def handle_generation_phase (cfg : SupervisorConfig) (rc : RetryCounts)
    (state : ResearchState) : SupervisorDecision × RetryCounts :=
  let hypotheses := state.hypotheses
  let methodologies := state.methodologies
  if hypotheses.isEmpty then
    (⟨some AgentType.hypothesis_generator, true, "Generating hypotheses"⟩, rc)
  else if methodologies.isEmpty then
    if !validate_hypotheses_quality cfg hypotheses then
      let current_retries :=
        getRetry rc state.workflow_id AgentType.hypothesis_generator
      if current_retries < cfg.max_retries AgentType.hypothesis_generator then
        (⟨some AgentType.hypothesis_generator, true,
          "Regenerating higher quality hypotheses (attempt " ++
            toString (current_retries + 1) ++ ")"⟩,
         setRetry rc state.workflow_id AgentType.hypothesis_generator
           (current_retries + 1))
      else
        (⟨some AgentType.methodology_designer, true,
          "Designing methodologies for " ++ toString hypotheses.length ++
            " hypotheses"⟩, rc)
    else
      (⟨some AgentType.methodology_designer, true,
        "Designing methodologies for " ++ toString hypotheses.length ++
          " hypotheses"⟩, rc)
  else
    (⟨some AgentType.validation, true, "Moving to validation phase"⟩, rc)

/-- `_handle_validation_results`: terminal decision after validation. -/
def handle_validation_results (state : ResearchState) : SupervisorDecision :=
  let validation_results := state.validation_results
  if !validation_results.isEmpty then
    let valid_count := (validation_results.filter (fun v => v.is_valid)).length
    ⟨none, false,
      "Workflow complete with " ++ toString valid_count ++ " valid hypotheses"⟩
  else
    ⟨none, false, "Validation completed but no results generated"⟩

/-- `_make_routing_decision` for the rule-based path (no LLM client is
configured; the source's unknown-status fallback, which would consult the
LLM, is unreachable because the status enum is exhaustively matched). -/
def make_routing_decision (cfg : SupervisorConfig) (rc : RetryCounts)
    (state : ResearchState) :
    SupervisorDecision × ResearchState × RetryCounts :=
  match state.status with
  | .initialized =>
    (⟨some AgentType.literature_hunter, true,
      "Starting workflow with literature search"⟩, state, rc)
  | .searching => handle_search_results cfg rc state
  | .synthesizing => handle_synthesis_results cfg rc state
  | .generating =>
    let p := handle_generation_phase cfg rc state
    (p.1, state, p.2)
  | .validating => (handle_validation_results state, state, rc)
  | .completed => (⟨none, false, "Workflow completed"⟩, state, rc)
  | .failed => (⟨none, false, "Workflow failed"⟩, state, rc)

/-- `_should_terminate`. Python's truthiness check
`if self.config.get('max_duration_seconds'):` means a configured value of
`0` disables the timeout check. -/
def should_terminate (cfg : SupervisorConfig) (elapsed : Nat)
    (state : ResearchState) : Bool :=
  if !state.should_continue then true
  else if state.status = WorkflowStatus.completed then true
  else if cfg.max_errors ≤ state.errors.length then true
  else
    match cfg.max_duration_seconds with
    | some d => if d ≠ 0 ∧ elapsed > d then true else false
    | none => false

/-- The fatal substring list of `_has_critical_errors`. -/
def critical_patterns : List String :=
  ["api key", "rate limit", "authentication", "unauthorized", "quota exceeded"]

/-- ASCII lowercasing of an error message (`error.lower()`; the source's
`str.lower` also folds non-ASCII letters, which no pattern contains). -/
def toLowerChars (s : String) : List Char :=
  s.data.map Char.toLower

/-- Substring containment (`pattern in error_lower`). -/
def containsSub (pat : List Char) : List Char → Bool
  | [] => pat.isEmpty
  | c :: rest => pat.isPrefixOf (c :: rest) || containsSub pat rest

/-- `_has_critical_errors`. -/
def has_critical_errors (state : ResearchState) : Bool :=
  state.errors.any (fun e =>
    critical_patterns.any (fun p => containsSub p.data (toLowerChars e)))

/-- `_handle_termination` (`completed_at` timestamp modelled out). -/
def handle_termination (state : ResearchState) : ResearchState :=
  let state :=
    if state.status ≠ WorkflowStatus.completed ∧
        state.status ≠ WorkflowStatus.failed then
      if !state.validation_results.isEmpty then
        update_state_status state WorkflowStatus.completed "supervisor"
      else
        update_state_status state WorkflowStatus.failed "supervisor"
    else state
  { state with should_continue := false }

/-- `_handle_critical_errors` (`completed_at` timestamp modelled out). -/
def handle_critical_errors (state : ResearchState) : ResearchState :=
  let state := update_state_status state WorkflowStatus.failed "supervisor"
  { state with should_continue := false }

/-- The `status_map` of `_apply_decision`; `.get` falls back to the
current status for the unmapped `SUPERVISOR` agent. -/
def status_map : AgentType → Option WorkflowStatus
  | .literature_hunter => some WorkflowStatus.searching
  | .knowledge_synthesizer => some WorkflowStatus.synthesizing
  | .hypothesis_generator => some WorkflowStatus.generating
  | .methodology_designer => some WorkflowStatus.generating
  | .validation => some WorkflowStatus.validating
  | .supervisor => none

/-- `_apply_decision`: status update plus the `should_continue` flag and
the audit-log append (timestamp modelled out). -/
def apply_decision (state : ResearchState) (decision : SupervisorDecision) :
    ResearchState :=
  let state :=
    match decision.next_agent with
    | some a =>
      update_state_status state ((status_map a).getD state.status)
        (AgentType.value a)
    | none => state
  let state := { state with should_continue := decision.should_continue }
  { state with
      execution_history := state.execution_history ++
        [{ agent := "supervisor"
           next_agent := decision.next_agent.map AgentType.value
           should_continue := decision.should_continue
           reason := decision.reason }] }

/-- `SupervisorAgent.process`: termination check, critical-error check,
then routing decision and its application. The `except` branch cannot fire
in the pure embedding. Returns the updated state together with the updated
retry counters. -/
def process (cfg : SupervisorConfig) (rc : RetryCounts) (elapsed : Nat)
    (state : ResearchState) : ResearchState × RetryCounts :=
  if should_terminate cfg elapsed state then (handle_termination state, rc)
  else if has_critical_errors state then (handle_critical_errors state, rc)
  else
    let r := make_routing_decision cfg rc state
    (apply_decision r.2.1 r.1, r.2.2)

end SupervisorAgent

/-! ### Literature hunter worker (`app/agents/literature_hunter.py`) -/

namespace LiteratureHunterAgent

/-- `LiteratureHunterAgent.process`. The body of the `try` block after the
initial status update (external search, LLM-driven query expansion,
deduplication, relevance scoring and truncation — all of which call the
HTTP search client or the LLM client) is modelled as a single fallible
pipeline passed in as `pipeline`: `Except.ok final_papers` when the block
completes with the final paper list, `Except.error msg` when any step of
it raises `msg`. The state-threading skeleton around it — the initial
`update_state_status(state, SEARCHING, self.name)`, the `state["papers"]`
write on success and the `add_error` / `should_continue = False` handler
of the `except` branch — is embedded directly. -/
def process (pipeline : Except String (List Paper))
    (state : ResearchState) : ResearchState :=
  let state := update_state_status state WorkflowStatus.searching
    "literature_hunter"
  match pipeline with
  | Except.ok final_papers => { state with papers := final_papers }
  | Except.error msg =>
    let state := add_error state ("Literature search failed: " ++ msg)
    { state with should_continue := false }

end LiteratureHunterAgent

/-! ### Preprint aggregator (`src/agent/tools/preprint_apis.py`) -/

namespace Agent

/-- The `Paper` dataclass of `preprint_apis.py`. `date_published` is a day
number (see the header comment); `ranking_score` models the
`metadata['ranking_score']` entry written by `_rank_papers`. -/
structure Paper where
  id : String
  title : String
  abstract : String
  authors : List String
  date_published : Int
  source : String
  url : String
  categories : List String := []
  doi : Option String := none
  citations : Nat := 0
  version : Nat := 1
  pdf_url : Option String := none
  relevance_score : ℚ := 0
  quality_score : ℚ := 0
  ranking_score : Option ℚ := none
deriving DecidableEq, Repr

/-- Title normalization of `PreprintAggregator._deduplicate`:
`re.sub(r'[^a-z0-9]+', '', title.lower())` — lowercase, then delete every
character that is not an ASCII lowercase letter or digit (whitespace and
punctuation are deleted outright, not collapsed). `Char.toLower` folds
the ASCII range exactly as the regex expects; non-ASCII letters are
deleted by the filter just as the regex deletes them. -/
def normalizeTitle (t : String) : List Char :=
  (t.data.map Char.toLower).filter
    (fun c => ('a' ≤ c ∧ c ≤ 'z') ∨ ('0' ≤ c ∧ c ≤ '9'))

/-- The duplicate-resolution loop of `_deduplicate`: scan `unique_papers`
for the first entry with the same normalized title and replace it when the
incoming paper has a strictly higher quality score (`break` after the
first match). -/
def replaceIfBetter : List Paper → Paper → List Paper
  | [], _ => []
  | q :: rest, p =>
    if normalizeTitle q.title = normalizeTitle p.title then
      (if p.quality_score > q.quality_score then p else q) :: rest
    else
      q :: replaceIfBetter rest p

/-- One iteration of the `for paper in papers` loop of `_deduplicate`,
carrying `(unique_papers, seen_titles)`; `seen_titles` is the list of
normalized titles already appended. -/
def dedupStep (acc : List Paper × List (List Char)) (p : Paper) :
    List Paper × List (List Char) :=
  let normalized_title := normalizeTitle p.title
  if normalized_title ∈ acc.2 then
    (replaceIfBetter acc.1 p, acc.2)
  else
    (acc.1 ++ [p], acc.2 ++ [normalized_title])

/-- `PreprintAggregator._deduplicate`. -/
def deduplicate (papers : List Paper) : List Paper :=
  (papers.foldl dedupStep ([], [])).1

/-- The per-source reputation weights of `_rank_papers`
(`source_weights.get(paper.source, 0.8)`). -/
def sourceWeight (source : String) : ℚ :=
  if source = "arxiv" then 1
  else if source = "biorxiv" then mkRat 95 100
  else if source = "medrxiv" then mkRat 95 100
  else if source = "chemrxiv" then mkRat 9 10
  else if source = "researchsquare" then mkRat 85 100
  else if source = "ssrn" then mkRat 85 100
  else mkRat 8 10

/-- The composite score computed inside `_rank_papers` for one paper:
`relevance*0.4 + quality*0.3 + recency*0.2 + source*0.1` with
`recency = max(0, 1 - days_old/365)` and
`days_old = (now - date_published).days`. -/
def rankingScore (now : Int) (p : Paper) : ℚ :=
  let days_old : Int := now - p.date_published
  let recency_score : ℚ := max 0 (1 - (days_old : ℚ) / 365)
  let source_score : ℚ := sourceWeight p.source
  p.relevance_score * mkRat 4 10 + p.quality_score * mkRat 3 10 +
    recency_score * mkRat 2 10 + source_score * mkRat 1 10

/-- The `paper.metadata['ranking_score'] = ...` write of `_rank_papers`. -/
def setRankingScore (now : Int) (p : Paper) : Paper :=
  { p with ranking_score := some (rankingScore now p) }

/-- The sort key of `papers.sort(key=lambda p: p.metadata['ranking_score'],
reverse=True)`; every paper sorted has just had its score written. -/
def rankingKey (p : Paper) : ℚ :=
  p.ranking_score.getD 0

/-- `PreprintAggregator._rank_papers`: write each paper's composite score,
then sort descending by it. Python's `list.sort` is stable; with
`reverse=True` it keeps the original relative order of equal keys, which
is exactly `List.mergeSort` with the reflexive-total relation
"later key ≤ earlier key". -/
def rank_papers (now : Int) (papers : List Paper) : List Paper :=
  let scored := papers.map (setRankingScore now)
  scored.mergeSort (fun a b => decide (rankingKey b ≤ rankingKey a))

/-- Modelled from the spec: the spec's own title normalization for the
deduplication rule — "normalized titles (lowercased, punctuation stripped,
whitespace collapsed)". Lowercase every character, delete punctuation
(anything neither alphanumeric nor whitespace), then collapse each
whitespace run into a single space. Stated only to compare the spec's
equality relation with the source's (`normalizeTitle`); it embeds no
source code. -/
def collapseSpacesAux : List Char → Bool → List Char
  | [], _ => []
  | c :: rest, prevSpace =>
    if c.isWhitespace then
      if prevSpace then collapseSpacesAux rest true
      else ' ' :: collapseSpacesAux rest true
    else c :: collapseSpacesAux rest false

/-- Modelled from the spec (see `collapseSpacesAux`): lowercase, strip
punctuation, collapse whitespace. -/
def specNormalizeTitle (t : String) : List Char :=
  collapseSpacesAux
    ((t.data.map Char.toLower).filter
      (fun c => (('a' ≤ c ∧ c ≤ 'z') ∨ ('0' ≤ c ∧ c ≤ '9')) ∨ c.isWhitespace))
    true

end Agent

/-! ### Claim theorems -/

/-- C4 counterexample: the static transition table does NOT admit backward
or same-state transitions — `is_valid_transition(Synthesizing, Searching)`
and `is_valid_transition(Searching, Searching)` are both `false`, refuting
the claim at its own named instances. -/
theorem C4_counterexample :
    is_valid_transition WorkflowStatus.synthesizing WorkflowStatus.searching = false ∧
    is_valid_transition WorkflowStatus.searching WorkflowStatus.searching = false := by
  decide

/-- C4 (amended): the static legal-transition table is strictly forward:
each non-terminal status may transition only to its immediate successor or
to Failed; Completed and Failed have no outgoing transitions; no backward
and no same-state transition is in the table. -/
theorem C4_transition_table_forward_only :
    ∀ a b : WorkflowStatus, is_valid_transition a b = true ↔
      ((a = WorkflowStatus.initialized ∧ b = WorkflowStatus.searching) ∨
       (a = WorkflowStatus.searching ∧ b = WorkflowStatus.synthesizing) ∨
       (a = WorkflowStatus.synthesizing ∧ b = WorkflowStatus.generating) ∨
       (a = WorkflowStatus.generating ∧ b = WorkflowStatus.validating) ∨
       (a = WorkflowStatus.validating ∧ b = WorkflowStatus.completed) ∨
       (a ≠ WorkflowStatus.completed ∧ a ≠ WorkflowStatus.failed ∧
        b = WorkflowStatus.failed)) := by
  decide

/-- A state refuting claim C1: it carries a critical-pattern error
("api key"), but because its `should_continue` flag is already false and
it has validation results, the termination check fires first and the next
supervisor call yields `Completed`, not `Failed`. -/
def stateC1 : ResearchState :=
  { create_initial_state "wf-c1" "q" 50 with
      status := WorkflowStatus.validating
      should_continue := false
      validation_results := [{ hypothesis_id := "h1", is_valid := false }]
      errors := ["api key rejected by provider"] }

/-- C1 counterexample: a state whose error log matches a critical pattern
for which the next supervisor call yields `Completed`, not `Failed` — the
critical-error check is NOT applied "regardless of any other field",
because the termination check runs first. -/
theorem C1_counterexample :
    SupervisorAgent.has_critical_errors stateC1 = true ∧
    (SupervisorAgent.process defaultConfig emptyRC 0 stateC1).1.status =
      WorkflowStatus.completed ∧
    (SupervisorAgent.process defaultConfig emptyRC 0 stateC1).1.status ≠
      WorkflowStatus.failed := by
  decide

/-- C1 (amended): provided the termination check does not fire first
(`_should_terminate` is false: `should_continue` is true, status is not
Completed, error count is below `max_errors` and no timeout), any
critical-pattern entry in the error log makes the next supervisor call
yield a Failed terminal state with `should_continue = false`, regardless
of the remaining fields. -/
theorem C1_critical_error_forces_failed (cfg : SupervisorConfig)
    (rc : RetryCounts) (elapsed : Nat) (state : ResearchState)
    (hterm : SupervisorAgent.should_terminate cfg elapsed state = false)
    (hcrit : SupervisorAgent.has_critical_errors state = true) :
    (SupervisorAgent.process cfg rc elapsed state).1.status =
      WorkflowStatus.failed ∧
    (SupervisorAgent.process cfg rc elapsed state).1.should_continue = false := by
  simp [SupervisorAgent.process, hterm, hcrit,
    SupervisorAgent.handle_critical_errors, update_state_status]

/-- A state exercising the amended C1: critical pattern present, nothing
triggers the earlier termination check. -/
def stateC1w : ResearchState :=
  { create_initial_state "wf-c1w" "q" 50 with
      status := WorkflowStatus.searching
      errors := ["LLM call failed: rate limit exceeded"] }

/-- Witness for the amended C1 at a concrete state. -/
theorem C1_critical_error_forces_failed_witness :
    (SupervisorAgent.process defaultConfig emptyRC 0 stateC1w).1.status =
      WorkflowStatus.failed ∧
    (SupervisorAgent.process defaultConfig emptyRC 0 stateC1w).1.should_continue =
      false :=
  C1_critical_error_forces_failed defaultConfig emptyRC 0 stateC1w
    (by decide) (by decide)

/-- One supervisor step on a (state, retry-counters) pair with the default
configuration, used to drive supervisor-only traces. -/
def stepC3 (p : ResearchState × RetryCounts) : ResearchState × RetryCounts :=
  SupervisorAgent.process defaultConfig p.2 0 p.1

/-- C3 counterexample: driving a freshly created workflow state by
supervisor calls alone (no papers ever arrive), the fifth call exhausts
the literature retries with zero papers and returns a state with
`should_continue = false` while the status is still the non-terminal
`Searching` — the claimed invariant fails on a reachable state. -/
theorem C3_counterexample :
    ((stepC3^[5]) (create_initial_state "wf" "q" 50, emptyRC)).1.should_continue =
      false ∧
    ((stepC3^[5]) (create_initial_state "wf" "q" 50, emptyRC)).1.status =
      WorkflowStatus.searching ∧
    ((stepC3^[5]) (create_initial_state "wf" "q" 50, emptyRC)).1.status ≠
      WorkflowStatus.completed ∧
    ((stepC3^[5]) (create_initial_state "wf" "q" 50, emptyRC)).1.status ≠
      WorkflowStatus.failed := by
  decide

/-- C3 (amended): supervisor processing can return `should_continue = false`
with a still-non-terminal status (the decision application does not set a
terminal status when the decision carries no next agent); the invariant
holds one step later: processing ANY state whose `should_continue` is
false immediately yields a terminal status (Completed or Failed) with
`should_continue` still false. -/
theorem C3_stopped_state_terminalizes (cfg : SupervisorConfig)
    (rc : RetryCounts) (elapsed : Nat) (state : ResearchState)
    (h : state.should_continue = false) :
    ((SupervisorAgent.process cfg rc elapsed state).1.status =
        WorkflowStatus.completed ∨
     (SupervisorAgent.process cfg rc elapsed state).1.status =
        WorkflowStatus.failed) ∧
    (SupervisorAgent.process cfg rc elapsed state).1.should_continue = false := by
  have hterm : SupervisorAgent.should_terminate cfg elapsed state = true := by
    unfold SupervisorAgent.should_terminate
    rw [h]
    rfl
  simp only [SupervisorAgent.process, hterm, if_true]
  unfold SupervisorAgent.handle_termination
  refine ⟨?_, rfl⟩
  split
  · split
    · exact Or.inl rfl
    · exact Or.inr rfl
  · rename_i hcond
    rcases not_and_or.mp hcond with hc | hf
    · exact Or.inl (not_not.mp hc)
    · exact Or.inr (not_not.mp hf)

/-- A stopped but non-terminal state for the amended C3. -/
def stateC3w : ResearchState :=
  { create_initial_state "wf-c3w" "q" 50 with
      status := WorkflowStatus.searching
      should_continue := false }

/-- Witness for the amended C3 at a concrete stopped state. -/
theorem C3_stopped_state_terminalizes_witness :
    (((SupervisorAgent.process defaultConfig emptyRC 0 stateC3w).1.status =
        WorkflowStatus.completed ∨
      (SupervisorAgent.process defaultConfig emptyRC 0 stateC3w).1.status =
        WorkflowStatus.failed) ∧
     (SupervisorAgent.process defaultConfig emptyRC 0 stateC3w).1.should_continue =
       false) :=
  C3_stopped_state_terminalizes defaultConfig emptyRC 0 stateC3w (by decide)

/-- C2: with the default thresholds, supervisor processing of a state in
status `Searching` (termination and critical-error checks not firing):
with at least `min_papers = 5` papers it advances to synthesis; with a
shortfall and literature retries remaining it increments the per-workflow
literature retry counter, doubles `max_papers` capped at 200, and
re-routes to literature search (status stays `Searching`); with retries
exhausted it advances to synthesis when at least one paper exists, and
with zero papers it emits a terminal decision (no next agent,
`should_continue = false`). -/
theorem C2_search_routing (rc : RetryCounts) (elapsed : Nat)
    (s : ResearchState)
    (hstatus : s.status = WorkflowStatus.searching)
    (hterm : SupervisorAgent.should_terminate defaultConfig elapsed s = false)
    (hcrit : SupervisorAgent.has_critical_errors s = false) :
    (5 ≤ s.papers.length →
      (SupervisorAgent.process defaultConfig rc elapsed s).1.status =
        WorkflowStatus.synthesizing ∧
      (SupervisorAgent.process defaultConfig rc elapsed s).1.should_continue =
        true ∧
      (SupervisorAgent.process defaultConfig rc elapsed s).1.max_papers =
        s.max_papers ∧
      (SupervisorAgent.process defaultConfig rc elapsed s).2 = rc) ∧
    (s.papers.length < 5 →
      getRetry rc s.workflow_id AgentType.literature_hunter < 3 →
      (SupervisorAgent.process defaultConfig rc elapsed s).1.status =
        WorkflowStatus.searching ∧
      (SupervisorAgent.process defaultConfig rc elapsed s).1.should_continue =
        true ∧
      (SupervisorAgent.process defaultConfig rc elapsed s).1.max_papers =
        min (s.max_papers * 2) 200 ∧
      (SupervisorAgent.process defaultConfig rc elapsed s).2 =
        setRetry rc s.workflow_id AgentType.literature_hunter
          (getRetry rc s.workflow_id AgentType.literature_hunter + 1)) ∧
    (s.papers.length < 5 →
      3 ≤ getRetry rc s.workflow_id AgentType.literature_hunter →
      0 < s.papers.length →
      (SupervisorAgent.process defaultConfig rc elapsed s).1.status =
        WorkflowStatus.synthesizing ∧
      (SupervisorAgent.process defaultConfig rc elapsed s).1.should_continue =
        true ∧
      (SupervisorAgent.process defaultConfig rc elapsed s).2 = rc) ∧
    (s.papers.length = 0 →
      3 ≤ getRetry rc s.workflow_id AgentType.literature_hunter →
      (SupervisorAgent.make_routing_decision defaultConfig rc s).1.next_agent =
        none ∧
      (SupervisorAgent.process defaultConfig rc elapsed s).1.should_continue =
        false ∧
      (SupervisorAgent.process defaultConfig rc elapsed s).1.status =
        WorkflowStatus.searching ∧
      (SupervisorAgent.process defaultConfig rc elapsed s).2 = rc) := by
  have e1 : defaultConfig.min_papers = 5 := rfl
  have e2 : defaultConfig.max_retries AgentType.literature_hunter = 3 := rfl
  refine ⟨?_, ?_, ?_, ?_⟩
  · intro h1
    simp [SupervisorAgent.process, hterm, hcrit,
      SupervisorAgent.make_routing_decision, hstatus,
      SupervisorAgent.handle_search_results, e1, e2, h1,
      SupervisorAgent.apply_decision, SupervisorAgent.status_map,
      update_state_status]
  · intro h1 h2
    have h1' : ¬ (5 ≤ s.papers.length) := by omega
    have h2u : rc s.workflow_id AgentType.literature_hunter < 3 := h2
    simp [SupervisorAgent.process, hterm, hcrit,
      SupervisorAgent.make_routing_decision, hstatus,
      SupervisorAgent.handle_search_results, e1, e2, h1', h2u,
      SupervisorAgent.apply_decision, SupervisorAgent.status_map,
      update_state_status, getRetry, setRetry]
  · intro h1 h2 h3
    have h1' : ¬ (5 ≤ s.papers.length) := by omega
    have h2u : ¬ (rc s.workflow_id AgentType.literature_hunter < 3) := by
      have := h2
      unfold getRetry at this
      omega
    simp [SupervisorAgent.process, hterm, hcrit,
      SupervisorAgent.make_routing_decision, hstatus,
      SupervisorAgent.handle_search_results, e1, e2, h1', h2u, h3,
      SupervisorAgent.apply_decision, SupervisorAgent.status_map,
      update_state_status, getRetry]
  · intro h1 h2
    have h1' : ¬ (5 ≤ s.papers.length) := by omega
    have h2u : ¬ (rc s.workflow_id AgentType.literature_hunter < 3) := by
      have := h2
      unfold getRetry at this
      omega
    have h3' : ¬ (0 < s.papers.length) := by omega
    simp [SupervisorAgent.process, hterm, hcrit,
      SupervisorAgent.make_routing_decision, hstatus,
      SupervisorAgent.handle_search_results, e1, e2, h1', h2u, h3', h1,
      SupervisorAgent.apply_decision, SupervisorAgent.status_map,
      update_state_status, getRetry, hstatus]

/-- A minimal paper dict for concrete states. -/
def paperStub (n : String) : Paper :=
  { id := n, title := "t" ++ n, abstract := "a", authors := [] }

/-- Searching state with enough papers. -/
def stateC2a : ResearchState :=
  { create_initial_state "wf-c2" "q" 50 with
      status := WorkflowStatus.searching
      papers := [paperStub "1", paperStub "2", paperStub "3", paperStub "4",
        paperStub "5"] }

/-- Searching state with a shortfall (3 papers). -/
def stateC2b : ResearchState :=
  { create_initial_state "wf-c2" "q" 50 with
      status := WorkflowStatus.searching
      papers := [paperStub "1", paperStub "2", paperStub "3"] }

/-- Searching state with zero papers. -/
def stateC2d : ResearchState :=
  { create_initial_state "wf-c2" "q" 50 with
      status := WorkflowStatus.searching }

/-- Retry counters with the literature stage already exhausted. -/
def rcC2max : RetryCounts := fun _ _ => 3

/-- Witness for C2: all four branches exercised at concrete states — 5
papers advance to synthesis; 3 papers with retries left double the cap to
100; 3 papers with retries exhausted advance anyway; 0 papers with
retries exhausted stop the workflow. -/
theorem C2_search_routing_witness :
    (SupervisorAgent.process defaultConfig emptyRC 0 stateC2a).1.status =
      WorkflowStatus.synthesizing ∧
    (SupervisorAgent.process defaultConfig emptyRC 0 stateC2b).1.max_papers =
      100 ∧
    (SupervisorAgent.process defaultConfig rcC2max 0 stateC2b).1.status =
      WorkflowStatus.synthesizing ∧
    (SupervisorAgent.process defaultConfig rcC2max 0 stateC2d).1.should_continue =
      false := by
  refine ⟨?_, ?_, ?_, ?_⟩
  · exact ((C2_search_routing emptyRC 0 stateC2a (by decide) (by decide)
      (by decide)).1 (by decide)).1
  · have h := ((C2_search_routing emptyRC 0 stateC2b (by decide) (by decide)
      (by decide)).2.1 (by decide) (by decide)).2.2.1
    rw [h]
    decide
  · exact ((C2_search_routing rcC2max 0 stateC2b (by decide) (by decide)
      (by decide)).2.2.1 (by decide) (by decide) (by decide)).1
  · exact ((C2_search_routing rcC2max 0 stateC2d (by decide) (by decide)
      (by decide)).2.2.2 (by decide) (by decide)).2.1

/-- A state refuting claim C5: synthesis has exactly one pattern and zero
gaps (so NOT "both zero"), yet the supervisor routes back to literature
search instead of advancing to hypothesis generation, because the code's
quality bar is `patterns ≥ min_patterns (2) OR gaps > 0`. -/
def stateC5 : ResearchState :=
  { create_initial_state "wf-c5" "q" 50 with
      status := WorkflowStatus.synthesizing
      papers := [paperStub "1", paperStub "2", paperStub "3"]
      synthesis := some
        { patterns := ["pat1"]
          key_findings := []
          research_gaps := []
          total_papers_analyzed := 3 } }

/-- C5 counterexample: a synthesis with one pattern (and zero gaps) does
NOT advance to generation — the next supervisor call re-routes to
literature search. -/
theorem C5_counterexample :
    (stateC5.synthesis.map (fun syn => syn.patterns.length)).getD 0 = 1 ∧
    (SupervisorAgent.process defaultConfig emptyRC 0 stateC5).1.status =
      WorkflowStatus.searching ∧
    (SupervisorAgent.process defaultConfig emptyRC 0 stateC5).1.status ≠
      WorkflowStatus.generating := by
  decide

/-- C5 (amended): with a synthesis artifact present, the supervisor routes
back to literature search exactly when the pattern count is below
`min_patterns` (2) AND the gap count is zero AND the paper count is below
the upper bound 20 (also setting `max_papers := 50`); it advances to
hypothesis generation when patterns ≥ 2 or at least one gap exists, and
likewise (without re-searching) when the poor-quality synthesis comes with
20 or more papers. -/
theorem C5_synthesis_routing (rc : RetryCounts) (elapsed : Nat)
    (s : ResearchState) (syn : Synthesis)
    (hstatus : s.status = WorkflowStatus.synthesizing)
    (hsyn : s.synthesis = some syn)
    (hterm : SupervisorAgent.should_terminate defaultConfig elapsed s = false)
    (hcrit : SupervisorAgent.has_critical_errors s = false) :
    (2 ≤ syn.patterns.length ∨ 0 < syn.research_gaps.length →
      (SupervisorAgent.process defaultConfig rc elapsed s).1.status =
        WorkflowStatus.generating ∧
      (SupervisorAgent.process defaultConfig rc elapsed s).1.should_continue =
        true ∧
      (SupervisorAgent.process defaultConfig rc elapsed s).2 = rc) ∧
    (syn.patterns.length < 2 → syn.research_gaps.length = 0 →
      s.papers.length < 20 →
      (SupervisorAgent.process defaultConfig rc elapsed s).1.status =
        WorkflowStatus.searching ∧
      (SupervisorAgent.process defaultConfig rc elapsed s).1.max_papers = 50 ∧
      (SupervisorAgent.process defaultConfig rc elapsed s).1.should_continue =
        true ∧
      (SupervisorAgent.process defaultConfig rc elapsed s).2 = rc) ∧
    (syn.patterns.length < 2 → syn.research_gaps.length = 0 →
      20 ≤ s.papers.length →
      (SupervisorAgent.process defaultConfig rc elapsed s).1.status =
        WorkflowStatus.generating ∧
      (SupervisorAgent.process defaultConfig rc elapsed s).1.should_continue =
        true ∧
      (SupervisorAgent.process defaultConfig rc elapsed s).2 = rc) := by
  have e3 : defaultConfig.min_patterns = 2 := rfl
  refine ⟨?_, ?_, ?_⟩
  · intro hq
    have hif : (syn.patterns.length ≥ defaultConfig.min_patterns ∨
        syn.research_gaps.length > 0) := by
      rw [e3]
      exact hq
    simp [SupervisorAgent.process, hterm, hcrit,
      SupervisorAgent.make_routing_decision, hstatus,
      SupervisorAgent.handle_synthesis_results, hsyn, hif,
      SupervisorAgent.apply_decision, SupervisorAgent.status_map,
      update_state_status]
  · intro hp hg hlt
    have hif : ¬ (syn.patterns.length ≥ defaultConfig.min_patterns ∨
        syn.research_gaps.length > 0) := by
      rw [e3]
      omega
    simp [SupervisorAgent.process, hterm, hcrit,
      SupervisorAgent.make_routing_decision, hstatus,
      SupervisorAgent.handle_synthesis_results, hsyn, hif, hlt,
      SupervisorAgent.apply_decision, SupervisorAgent.status_map,
      update_state_status]
  · intro hp hg hge
    have hif : ¬ (syn.patterns.length ≥ defaultConfig.min_patterns ∨
        syn.research_gaps.length > 0) := by
      rw [e3]
      omega
    have hlt' : ¬ (s.papers.length < 20) := by omega
    simp [SupervisorAgent.process, hterm, hcrit,
      SupervisorAgent.make_routing_decision, hstatus,
      SupervisorAgent.handle_synthesis_results, hsyn, hif, hlt',
      SupervisorAgent.apply_decision, SupervisorAgent.status_map,
      update_state_status]

/-- A synthesizing state with a good synthesis (two patterns). -/
def stateC5w : ResearchState :=
  { create_initial_state "wf-c5w" "q" 50 with
      status := WorkflowStatus.synthesizing
      synthesis := some
        { patterns := ["pat1", "pat2"]
          key_findings := []
          research_gaps := []
          total_papers_analyzed := 0 } }

/-- Witness for the amended C5: a two-pattern synthesis advances to
generation. -/
theorem C5_synthesis_routing_witness :
    (SupervisorAgent.process defaultConfig emptyRC 0 stateC5w).1.status =
      WorkflowStatus.generating :=
  ((C5_synthesis_routing emptyRC 0 stateC5w
      { patterns := ["pat1", "pat2"]
        key_findings := []
        research_gaps := []
        total_papers_analyzed := 0 }
      (by decide) (by decide) (by decide) (by decide)).1
    (Or.inl (by decide))).1

/-- C6: whenever the termination check fires on a non-terminal state
(`should_continue` false, error count at `max_errors` or above, or the
configured time budget exceeded), the next supervisor call returns a
terminal state: `Completed` if any validation results exist, `Failed`
otherwise, with `should_continue` false — regardless of whether the
individual validation results were judged valid. -/
theorem C6_termination_outcome (cfg : SupervisorConfig) (rc : RetryCounts)
    (elapsed : Nat) (s : ResearchState)
    (hnc : s.status ≠ WorkflowStatus.completed)
    (hnf : s.status ≠ WorkflowStatus.failed)
    (hfire : s.should_continue = false ∨ cfg.max_errors ≤ s.errors.length ∨
      (∃ d, cfg.max_duration_seconds = some d ∧ d ≠ 0 ∧ elapsed > d)) :
    (s.validation_results ≠ [] →
      (SupervisorAgent.process cfg rc elapsed s).1.status =
        WorkflowStatus.completed) ∧
    (s.validation_results = [] →
      (SupervisorAgent.process cfg rc elapsed s).1.status =
        WorkflowStatus.failed) ∧
    (SupervisorAgent.process cfg rc elapsed s).1.should_continue = false := by
  have hterm : SupervisorAgent.should_terminate cfg elapsed s = true := by
    unfold SupervisorAgent.should_terminate
    rcases hfire with h | h | ⟨d, hd, hdz, hde⟩
    · rw [h]
      rfl
    · split_ifs <;> rfl
    · split_ifs <;> first | rfl | simp [hd, hdz, hde]
  simp only [SupervisorAgent.process, hterm, if_true]
  unfold SupervisorAgent.handle_termination
  rw [if_pos ⟨hnc, hnf⟩]
  refine ⟨?_, ?_, rfl⟩
  · intro hv
    cases hval : s.validation_results with
    | nil => exact absurd hval hv
    | cons x xs => simp [hval, update_state_status]
  · intro hv
    simp [hv, update_state_status]

/-- A non-terminal state whose validation results exist but are all
invalid, and whose `should_continue` flag is false. -/
def stateC6w : ResearchState :=
  { create_initial_state "wf-c6" "q" 50 with
      status := WorkflowStatus.validating
      should_continue := false
      validation_results := [{ hypothesis_id := "h1", is_valid := false },
        { hypothesis_id := "h2", is_valid := false }] }

/-- Witness for C6: a run whose validation results were all judged invalid
still ends `Completed`. -/
theorem C6_termination_outcome_witness :
    (SupervisorAgent.process defaultConfig emptyRC 0 stateC6w).1.status =
      WorkflowStatus.completed :=
  (C6_termination_outcome defaultConfig emptyRC 0 stateC6w (by decide)
    (by decide) (Or.inl (by decide))).1 (by decide)

/-- Retry-counter effect of one pass through `_handle_search_results`: the
counter at any key is unchanged, or it was below its maximum and went up
by exactly one. -/
theorem search_retry_step (cfg : SupervisorConfig) (rc : RetryCounts)
    (s : ResearchState) (wid : String) (a : AgentType) :
    (SupervisorAgent.handle_search_results cfg rc s).2.2 wid a = rc wid a ∨
    (rc wid a < cfg.max_retries a ∧
      (SupervisorAgent.handle_search_results cfg rc s).2.2 wid a =
        rc wid a + 1) := by
  simp only [SupervisorAgent.handle_search_results]
  split_ifs with g1 g2 g3
  · left; rfl
  · simp only [setRetry, getRetry]
    by_cases hk : wid = s.workflow_id ∧ a = AgentType.literature_hunter
    · rw [if_pos hk]
      obtain ⟨hw, ha⟩ := hk
      subst hw
      subst ha
      right
      exact ⟨g2, rfl⟩
    · rw [if_neg hk]
      left
      rfl
  · left; rfl
  · left; rfl

/-- Retry-counter effect of one pass through `_handle_synthesis_results`. -/
theorem synthesis_retry_step (cfg : SupervisorConfig) (rc : RetryCounts)
    (s : ResearchState) (wid : String) (a : AgentType) :
    (SupervisorAgent.handle_synthesis_results cfg rc s).2.2 wid a = rc wid a ∨
    (rc wid a < cfg.max_retries a ∧
      (SupervisorAgent.handle_synthesis_results cfg rc s).2.2 wid a =
        rc wid a + 1) := by
  cases hsyn : s.synthesis with
  | none =>
    simp only [SupervisorAgent.handle_synthesis_results, hsyn]
    split_ifs with g1
    · simp only [setRetry, getRetry]
      by_cases hk : wid = s.workflow_id ∧ a = AgentType.knowledge_synthesizer
      · rw [if_pos hk]
        obtain ⟨hw, ha⟩ := hk
        subst hw
        subst ha
        right
        exact ⟨g1, rfl⟩
      · rw [if_neg hk]
        left
        rfl
    · left; rfl
  | some syn =>
    simp only [SupervisorAgent.handle_synthesis_results, hsyn]
    split_ifs <;> (left; rfl)

/-- Retry-counter effect of one pass through `_handle_generation_phase`. -/
theorem generation_retry_step (cfg : SupervisorConfig) (rc : RetryCounts)
    (s : ResearchState) (wid : String) (a : AgentType) :
    (SupervisorAgent.handle_generation_phase cfg rc s).2 wid a = rc wid a ∨
    (rc wid a < cfg.max_retries a ∧
      (SupervisorAgent.handle_generation_phase cfg rc s).2 wid a =
        rc wid a + 1) := by
  simp only [SupervisorAgent.handle_generation_phase]
  split_ifs with g1 g2 g3 g4
  · left; rfl
  · simp only [setRetry, getRetry]
    by_cases hk : wid = s.workflow_id ∧ a = AgentType.hypothesis_generator
    · rw [if_pos hk]
      obtain ⟨hw, ha⟩ := hk
      subst hw
      subst ha
      right
      exact ⟨g4, rfl⟩
    · rw [if_neg hk]
      left
      rfl
  · left; rfl
  · left; rfl
  · left; rfl

/-- Retry-counter effect of one full supervisor call: at every
(workflow, stage) key the counter is unchanged, or it was strictly below
its configured maximum and was incremented by exactly one. -/
theorem process_retry_step (cfg : SupervisorConfig) (rc : RetryCounts)
    (elapsed : Nat) (s : ResearchState) (wid : String) (a : AgentType) :
    (SupervisorAgent.process cfg rc elapsed s).2 wid a = rc wid a ∨
    (rc wid a < cfg.max_retries a ∧
      (SupervisorAgent.process cfg rc elapsed s).2 wid a = rc wid a + 1) := by
  unfold SupervisorAgent.process
  split_ifs with h1 h2
  · left; rfl
  · left; rfl
  · simp only [SupervisorAgent.make_routing_decision]
    cases hs : s.status
    · left; rfl
    · exact search_retry_step cfg rc s wid a
    · exact synthesis_retry_step cfg rc s wid a
    · exact generation_retry_step cfg rc s wid a
    · left; rfl
    · left; rfl
    · left; rfl

/-- The retry-counter table after a sequence of supervisor calls: each
list entry supplies the elapsed seconds and the input state of one call
(worker activity between calls never touches `self.retry_counts`). -/
def runRetryCounts (cfg : SupervisorConfig)
    (inputs : List (Nat × ResearchState)) (rc : RetryCounts) : RetryCounts :=
  inputs.foldl (fun rc p => (SupervisorAgent.process cfg rc p.1 p.2).2) rc

/-- Number of calls in the sequence at which the (wid, a) retry counter
increased, i.e. the number of retry decisions the supervisor emitted for
stage `a` of workflow `wid`. -/
def retrySteps (cfg : SupervisorConfig) (inputs : List (Nat × ResearchState))
    (rc : RetryCounts) (wid : String) (a : AgentType) : Nat :=
  match inputs with
  | [] => 0
  | p :: rest =>
    (if rc wid a < (SupervisorAgent.process cfg rc p.1 p.2).2 wid a then 1
     else 0) +
      retrySteps cfg rest ((SupervisorAgent.process cfg rc p.1 p.2).2) wid a

/-- Fold invariant: the counter never decreases, stays below its maximum
when it starts below it, and the number of increment steps accounts
exactly for its growth. -/
theorem runRetryCounts_inv (cfg : SupervisorConfig) (wid : String)
    (a : AgentType) :
    ∀ (inputs : List (Nat × ResearchState)) (rc : RetryCounts),
    rc wid a ≤ runRetryCounts cfg inputs rc wid a ∧
    (rc wid a ≤ cfg.max_retries a →
      runRetryCounts cfg inputs rc wid a ≤ cfg.max_retries a) ∧
    retrySteps cfg inputs rc wid a + rc wid a =
      runRetryCounts cfg inputs rc wid a := by
  intro inputs
  induction inputs with
  | nil =>
    intro rc
    refine ⟨le_refl _, fun h => h, ?_⟩
    simp [runRetryCounts, retrySteps]
  | cons p rest ih =>
    intro rc
    obtain ⟨ih1, ih2, ih3⟩ := ih ((SupervisorAgent.process cfg rc p.1 p.2).2)
    have hstep := process_retry_step cfg rc p.1 p.2 wid a
    have hrun : runRetryCounts cfg (p :: rest) rc =
        runRetryCounts cfg rest ((SupervisorAgent.process cfg rc p.1 p.2).2) :=
      rfl
    have hcons : retrySteps cfg (p :: rest) rc wid a =
        (if rc wid a < (SupervisorAgent.process cfg rc p.1 p.2).2 wid a then 1
         else 0) +
          retrySteps cfg rest ((SupervisorAgent.process cfg rc p.1 p.2).2)
            wid a := rfl
    rw [hrun, hcons]
    rcases hstep with h | ⟨hlt, h⟩
    · rw [if_neg (by omega)]
      refine ⟨by omega, fun hle => ih2 (by omega), by omega⟩
    · rw [if_pos (by omega)]
      refine ⟨by omega, fun hle => ih2 (by omega), by omega⟩

/-- C7: retry boundedness. Starting from the empty retry table, along any
sequence of supervisor calls the per-(workflow, stage) counter never
exceeds `max_retries[stage]`; the number of calls at which the supervisor
emitted a retry decision for that stage (each incrementing the counter by
one) equals the final counter and is therefore at most
`max_retries[stage]`; and once a counter has reached its maximum, no
supervisor call ever increments it again — in particular, a Searching
state with a paper shortfall and an exhausted literature counter gets the
degrade branch (advance to synthesis) or, with zero papers, the fail
branch (no next agent, stop), never another retry. -/
theorem C7_retry_boundedness (cfg : SupervisorConfig)
    (inputs : List (Nat × ResearchState)) (wid : String) (a : AgentType) :
    runRetryCounts cfg inputs emptyRC wid a ≤ cfg.max_retries a ∧
    retrySteps cfg inputs emptyRC wid a =
      runRetryCounts cfg inputs emptyRC wid a ∧
    retrySteps cfg inputs emptyRC wid a ≤ cfg.max_retries a ∧
    (∀ (rc : RetryCounts) (elapsed : Nat) (s : ResearchState),
      cfg.max_retries a ≤ rc wid a →
      (SupervisorAgent.process cfg rc elapsed s).2 wid a = rc wid a) ∧
    (∀ (rc : RetryCounts) (s : ResearchState),
      s.status = WorkflowStatus.searching →
      s.papers.length < cfg.min_papers →
      cfg.max_retries AgentType.literature_hunter ≤
        getRetry rc s.workflow_id AgentType.literature_hunter →
      (SupervisorAgent.make_routing_decision cfg rc s).1.next_agent =
        some AgentType.knowledge_synthesizer ∨
      ((SupervisorAgent.make_routing_decision cfg rc s).1.next_agent = none ∧
       (SupervisorAgent.make_routing_decision cfg rc s).1.should_continue =
         false)) := by
  obtain ⟨m1, m2, m3⟩ := runRetryCounts_inv cfg wid a inputs emptyRC
  have hz : emptyRC wid a = 0 := rfl
  refine ⟨?_, ?_, ?_, ?_, ?_⟩
  · exact m2 (by omega)
  · omega
  · have := m2 (by omega)
    omega
  · intro rc elapsed s hge
    rcases process_retry_step cfg rc elapsed s wid a with h | ⟨hlt, h⟩
    · exact h
    · omega
  · intro rc s hs hlt hge
    unfold SupervisorAgent.make_routing_decision
    rw [hs]
    simp only [SupervisorAgent.handle_search_results]
    rw [if_neg (by omega)]
    rw [if_neg (by
      have : getRetry rc s.workflow_id AgentType.literature_hunter =
        rc s.workflow_id AgentType.literature_hunter := rfl
      omega)]
    by_cases hp : 0 < s.papers.length
    · rw [if_pos hp]
      left
      rfl
    · rw [if_neg hp]
      right
      exact ⟨rfl, rfl⟩

/-- A retry table with the literature counter exhausted. -/
def rcC7max : RetryCounts := fun _ _ => 3

/-- A Searching state for workflow `wf-c7` with zero papers. -/
def stateC7s : ResearchState :=
  { create_initial_state "wf-c7" "q" 50 with
      status := WorkflowStatus.searching }

/-- Witness for C7: with the default limits and the literature counter at
its maximum 3, a further supervisor call on a zero-paper Searching state
leaves the counter at 3 (no further retry), and the routing decision is
the fail branch. -/
theorem C7_retry_boundedness_witness :
    (SupervisorAgent.process defaultConfig rcC7max 0 stateC7s).2 "wf-c7"
        AgentType.literature_hunter =
      rcC7max "wf-c7" AgentType.literature_hunter ∧
    ((SupervisorAgent.make_routing_decision defaultConfig rcC7max
          stateC7s).1.next_agent = some AgentType.knowledge_synthesizer ∨
     ((SupervisorAgent.make_routing_decision defaultConfig rcC7max
          stateC7s).1.next_agent = none ∧
      (SupervisorAgent.make_routing_decision defaultConfig rcC7max
          stateC7s).1.should_continue = false)) :=
  ⟨(C7_retry_boundedness defaultConfig [] "wf-c7"
      AgentType.literature_hunter).2.2.2.1 rcC7max 0 stateC7s (by decide),
   (C7_retry_boundedness defaultConfig [] "wf-c7"
      AgentType.literature_hunter).2.2.2.2 rcC7max stateC7s (by decide)
     (by decide) (by decide)⟩

/-- C8 counterexample: on a failed search pipeline the literature-hunter
worker does NOT leave the control fields untouched — it flips
`should_continue` to false (line 112 of the source) and overwrites
`status` with its own stage, so the returned state differs from the input
by more than an error-log append. -/
theorem C8_counterexample :
    (LiteratureHunterAgent.process (Except.error "boom")
        (create_initial_state "wf-c8" "q" 50)).should_continue = false ∧
    (create_initial_state "wf-c8" "q" 50).should_continue = true ∧
    (LiteratureHunterAgent.process (Except.error "boom")
        (create_initial_state "wf-c8" "q" 50)).status ≠
      (create_initial_state "wf-c8" "q" 50).status := by
  decide

/-- C8 (amended): exact frame of the literature-hunter worker. On failure
the returned state differs from the input in exactly four fields: status
is set to the worker's own stage (Searching), `current_agent` is set to
`literature_hunter`, one stage-tagged entry is appended to the error log,
and — contrary to the claim's control-field clause — `should_continue` is
set to false. On success only status, `current_agent` and the `papers`
artifact change. In both cases `max_papers`, the other artifacts, the
retry counters (which live in the supervisor, not the state) and the rest
of the state are untouched, and no exception crosses the worker boundary
(the `except` handler converts it into the error path). -/
theorem C8_worker_frame (s : ResearchState) (msg : String)
    (final_papers : List Paper) :
    LiteratureHunterAgent.process (Except.error msg) s =
      { s with
          status := WorkflowStatus.searching
          current_agent := "literature_hunter"
          errors := s.errors ++
            ["[literature_hunter] Literature search failed: " ++ msg]
          should_continue := false } ∧
    LiteratureHunterAgent.process (Except.ok final_papers) s =
      { s with
          status := WorkflowStatus.searching
          current_agent := "literature_hunter"
          papers := final_papers } :=
  ⟨rfl, rfl⟩

/-- The normalized title of a paper (shorthand used by the C9 lemmas). -/
def pnorm (p : Agent.Paper) : List Char :=
  Agent.normalizeTitle p.title

/-- `replaceIfBetter` never changes any position's normalized title. -/
theorem replaceIfBetter_map_norm (acc : List Agent.Paper) (p : Agent.Paper) :
    (Agent.replaceIfBetter acc p).map pnorm = acc.map pnorm := by
  induction acc with
  | nil => rfl
  | cons q rest ih =>
    unfold Agent.replaceIfBetter
    split_ifs with h hb
    · simp only [List.map_cons]
      congr 1
      exact h.symm
    · rfl
    · simp only [List.map_cons, ih]

/-- Every entry of `replaceIfBetter acc p` is an old entry or `p`. -/
theorem replaceIfBetter_mem (acc : List Agent.Paper) (p : Agent.Paper) :
    ∀ x ∈ Agent.replaceIfBetter acc p, x ∈ acc ∨ x = p := by
  induction acc with
  | nil =>
    intro x hx
    cases hx
  | cons q rest ih =>
    intro x hx
    unfold Agent.replaceIfBetter at hx
    split_ifs at hx with h hb
    · rcases List.mem_cons.mp hx with rfl | hx
      · right; rfl
      · left; exact List.mem_cons_of_mem _ hx
    · rcases List.mem_cons.mp hx with rfl | hx
      · left; exact List.mem_cons_self _ _
      · left; exact List.mem_cons_of_mem _ hx
    · rcases List.mem_cons.mp hx with rfl | hx
      · left; exact List.mem_cons_self _ _
      · rcases ih x hx with h1 | h1
        · left; exact List.mem_cons_of_mem _ h1
        · right; exact h1

/-- An entry whose normalized title differs from `p`'s survives
`replaceIfBetter` untouched. -/
theorem replaceIfBetter_mem_of_ne (acc : List Agent.Paper) (p x : Agent.Paper)
    (hx : x ∈ acc) (hne : pnorm x ≠ pnorm p) :
    x ∈ Agent.replaceIfBetter acc p := by
  induction acc with
  | nil => cases hx
  | cons q rest ih =>
    unfold Agent.replaceIfBetter
    rcases List.mem_cons.mp hx with rfl | hx'
    · split_ifs with h hb
      · exact absurd h hne
      · exact absurd h hne
      · exact List.mem_cons_self _ _
    · split_ifs with h hb
      · exact List.mem_cons_of_mem _ hx'
      · exact List.mem_cons_of_mem _ hx'
      · exact List.mem_cons_of_mem _ (ih hx')

/-- If some entry of `acc` shares `p`'s normalized title and the
normalized titles of `acc` are distinct, `replaceIfBetter acc p` contains
an entry of that title dominating both that entry's and `p`'s quality. -/
theorem replaceIfBetter_rep (p : Agent.Paper) :
    ∀ (acc : List Agent.Paper) (q : Agent.Paper), q ∈ acc →
    pnorm q = pnorm p → (acc.map pnorm).Nodup →
    ∃ q' ∈ Agent.replaceIfBetter acc p,
      pnorm q' = pnorm p ∧
      q.quality_score ≤ q'.quality_score ∧
      p.quality_score ≤ q'.quality_score := by
  intro acc
  induction acc with
  | nil =>
    intro q hq
    cases hq
  | cons y rest ih =>
    intro q hq hn nd
    rcases List.mem_cons.mp hq with rfl | hq'
    · unfold Agent.replaceIfBetter
      split_ifs with h hb
      · exact ⟨p, List.mem_cons_self _ _, rfl, le_of_lt hb, le_refl _⟩
      · exact ⟨q, List.mem_cons_self _ _, hn, le_refl _, not_lt.mp hb⟩
      · exact absurd hn h
    · unfold Agent.replaceIfBetter
      split_ifs with h hb
      · exfalso
        have hmem : pnorm q ∈ rest.map pnorm := List.mem_map_of_mem pnorm hq'
        have hnd := (List.nodup_cons.mp nd).1
        have heq : pnorm y = pnorm q := by
          have h' : pnorm y = pnorm p := h
          rw [h', hn]
        have : pnorm y ∈ rest.map pnorm := by
          rw [heq]
          exact hmem
        exact hnd this
      · exfalso
        have hmem : pnorm q ∈ rest.map pnorm := List.mem_map_of_mem pnorm hq'
        have hnd := (List.nodup_cons.mp nd).1
        have heq : pnorm y = pnorm q := by
          have h' : pnorm y = pnorm p := h
          rw [h', hn]
        have : pnorm y ∈ rest.map pnorm := by
          rw [heq]
          exact hmem
        exact hnd this
      · obtain ⟨q', hq'mem, h1, h2, h3⟩ :=
          ih q hq' hn (List.nodup_cons.mp nd).2
        exact ⟨q', List.mem_cons_of_mem _ hq'mem, h1, h2, h3⟩

/-- Loop invariant of `_deduplicate`: relative to the already-processed
prefix, the accumulator consists of processed papers, has pairwise
distinct normalized titles, and holds for each processed paper a
same-title representative dominating the quality of every processed
paper of that title. -/
def DedupInv (processed acc : List Agent.Paper) : Prop :=
  (∀ p ∈ acc, p ∈ processed) ∧
  (acc.map pnorm).Nodup ∧
  (∀ p ∈ processed, ∃ q ∈ acc,
    pnorm q = pnorm p ∧
    ∀ r ∈ processed, pnorm r = pnorm p →
      r.quality_score ≤ q.quality_score)

/-- One `_deduplicate` loop iteration preserves the invariant and the
`seen_titles` synchronization. -/
theorem dedupStep_inv (processed acc : List Agent.Paper)
    (seen : List (List Char)) (x : Agent.Paper)
    (hseen : seen = acc.map pnorm)
    (hinv : DedupInv processed acc) :
    (Agent.dedupStep (acc, seen) x).2 =
      (Agent.dedupStep (acc, seen) x).1.map pnorm ∧
    DedupInv (processed ++ [x]) (Agent.dedupStep (acc, seen) x).1 := by
  obtain ⟨hmem, hnd, hcov⟩ := hinv
  by_cases hx : Agent.normalizeTitle x.title ∈ seen
  · have hstep : Agent.dedupStep (acc, seen) x =
        (Agent.replaceIfBetter acc x, seen) := by
      simp [Agent.dedupStep, hx]
    rw [hstep]
    have hsync : seen = (Agent.replaceIfBetter acc x).map pnorm := by
      rw [replaceIfBetter_map_norm]
      exact hseen
    refine ⟨hsync, ?_, ?_, ?_⟩
    · intro p hp
      rcases replaceIfBetter_mem acc x p hp with h | rfl
      · exact List.mem_append_left _ (hmem p h)
      · exact List.mem_append_right _ (List.mem_cons_self _ _)
    · rw [replaceIfBetter_map_norm]
      exact hnd
    · -- there is an old entry m with x's normalized title
      have hxm : pnorm x ∈ acc.map pnorm := by
        rw [← hseen]
        exact hx
      obtain ⟨m, hm, hmx⟩ := List.mem_map.mp hxm
      intro p hp
      rcases List.mem_append.mp hp with hp | hp
      · obtain ⟨q, hq, hqn, hqmax⟩ := hcov p hp
        by_cases hpn : pnorm p = pnorm x
        · obtain ⟨q', hq'm, h1, h2, h3⟩ :=
            replaceIfBetter_rep x acc q hq (by rw [hqn, hpn]) hnd
          refine ⟨q', hq'm, by rw [h1, hpn], ?_⟩
          intro r hr hrn
          rcases List.mem_append.mp hr with hr | hr
          · exact le_trans (hqmax r hr hrn) h2
          · have : r = x := List.mem_singleton.mp hr
            subst this
            exact h3
        · refine ⟨q, replaceIfBetter_mem_of_ne acc x q hq
            (by rw [hqn]; exact hpn), hqn, ?_⟩
          intro r hr hrn
          rcases List.mem_append.mp hr with hr | hr
          · exact hqmax r hr hrn
          · have : r = x := List.mem_singleton.mp hr
            subst this
            exact absurd hrn.symm hpn
      · have hpx : p = x := List.mem_singleton.mp hp
        subst hpx
        -- each processed paper of this title is dominated by m
        have hmdom : ∀ r ∈ processed, pnorm r = pnorm p →
            r.quality_score ≤ m.quality_score := by
          intro r hr hrn
          obtain ⟨qr, hqr, hqrn, hqrmax⟩ := hcov r hr
          have hqreq : qr = m := by
            refine List.inj_on_of_nodup_map hnd hqr hm ?_
            rw [hqrn, hrn, hmx]
          rw [← hqreq]
          exact hqrmax r hr rfl
        obtain ⟨q', hq'm, h1, h2, h3⟩ :=
          replaceIfBetter_rep p acc m hm hmx hnd
        refine ⟨q', hq'm, h1, ?_⟩
        intro r hr hrn
        rcases List.mem_append.mp hr with hr | hr
        · exact le_trans (hmdom r hr hrn) h2
        · have : r = p := List.mem_singleton.mp hr
          subst this
          exact h3
  · have hstep : Agent.dedupStep (acc, seen) x =
        (acc ++ [x], seen ++ [Agent.normalizeTitle x.title]) := by
      simp [Agent.dedupStep, hx]
    rw [hstep]
    have hxn : pnorm x ∉ acc.map pnorm := by
      rw [← hseen]
      exact hx
    refine ⟨?_, ?_, ?_, ?_⟩
    · rw [hseen]
      simp [pnorm]
    · intro p hp
      rcases List.mem_append.mp hp with hp | hp
      · exact List.mem_append_left _ (hmem p hp)
      · exact List.mem_append_right _ hp
    · rw [List.map_append]
      rw [List.nodup_append]
      refine ⟨hnd, List.nodup_singleton _, ?_⟩
      intro t ht ht'
      have : t = pnorm x := List.mem_singleton.mp ht'
      subst this
      exact hxn ht
    · intro p hp
      rcases List.mem_append.mp hp with hp | hp
      · obtain ⟨q, hq, hqn, hqmax⟩ := hcov p hp
        refine ⟨q, List.mem_append_left _ hq, hqn, ?_⟩
        intro r hr hrn
        rcases List.mem_append.mp hr with hr | hr
        · exact hqmax r hr hrn
        · have : r = x := List.mem_singleton.mp hr
          subst this
          exfalso
          apply hxn
          have hrq : pnorm r = pnorm q := by rw [hrn, hqn]
          rw [hrq]
          exact List.mem_map_of_mem pnorm hq
      · have hpx : p = x := List.mem_singleton.mp hp
        subst hpx
        refine ⟨p, List.mem_append_right _ (List.mem_cons_self _ _), rfl, ?_⟩
        intro r hr hrn
        rcases List.mem_append.mp hr with hr | hr
        · exfalso
          obtain ⟨qr, hqr, hqrn, _⟩ := hcov r hr
          apply hxn
          rw [show pnorm p = pnorm qr from by rw [hqrn, hrn]]
          exact List.mem_map_of_mem pnorm hqr
        · have : r = p := List.mem_singleton.mp hr
          subst this
          exact le_refl _

/-- Folding the `_deduplicate` loop over the remaining papers preserves
the invariant. -/
theorem dedupFold_inv (papers : List Agent.Paper) :
    ∀ (processed acc : List Agent.Paper) (seen : List (List Char)),
    seen = acc.map pnorm → DedupInv processed acc →
    DedupInv (processed ++ papers)
      (papers.foldl Agent.dedupStep (acc, seen)).1 := by
  induction papers with
  | nil =>
    intro processed acc seen hseen hinv
    simpa using hinv
  | cons x rest ih =>
    intro processed acc seen hseen hinv
    obtain ⟨hsync, hinv'⟩ := dedupStep_inv processed acc seen x hseen hinv
    have hfold : ((x :: rest).foldl Agent.dedupStep (acc, seen)) =
        rest.foldl Agent.dedupStep (Agent.dedupStep (acc, seen) x) := rfl
    rw [hfold]
    have := ih (processed ++ [x]) (Agent.dedupStep (acc, seen) x).1
      (Agent.dedupStep (acc, seen) x).2 hsync hinv'
    rw [List.append_assoc] at this
    simpa using this

/-- C9 (amended): `_deduplicate` groups papers by the code's normalized
title — lowercase, then DELETE every non-alphanumeric character
(whitespace removed outright rather than collapsed) — and for each group
present in the input, the output contains exactly one entry (normalized
titles in the output are pairwise distinct and every input paper's group
is represented), namely an input member of that group whose quality score
dominates the whole group. -/
theorem C9_dedup_groups_by_code_norm (papers : List Agent.Paper) :
    (∀ p ∈ Agent.deduplicate papers, p ∈ papers) ∧
    ((Agent.deduplicate papers).map pnorm).Nodup ∧
    (∀ p ∈ papers, ∃ q ∈ Agent.deduplicate papers,
      pnorm q = pnorm p ∧
      ∀ r ∈ papers, pnorm r = pnorm p →
        r.quality_score ≤ q.quality_score) := by
  have h := dedupFold_inv papers [] [] [] rfl
    ⟨fun p hp => absurd hp (List.not_mem_nil p),
     List.nodup_nil,
     fun p hp => absurd hp (List.not_mem_nil p)⟩
  simpa [Agent.deduplicate, DedupInv] using h

/-- Two papers the code's normalization conflates ("ab c" and "a bc" both
normalize to "abc") but the spec's normalization (whitespace collapsed,
not deleted) keeps distinct. -/
def paperC9a : Agent.Paper :=
  { id := "A", title := "ab c", abstract := "", authors := [],
    date_published := 0, source := "arxiv", url := "", quality_score := 1 }

/-- Second paper of the C9 counterexample, higher quality. -/
def paperC9b : Agent.Paper :=
  { id := "B", title := "a bc", abstract := "", authors := [],
    date_published := 0, source := "arxiv", url := "", quality_score := 2 }

/-- C9 counterexample: under the spec's normalization (lowercase,
punctuation stripped, whitespace COLLAPSED) the titles "ab c" and "a bc"
are distinct, so the claimed equality criterion puts these two papers in
different groups and demands two output entries; the code deletes
whitespace outright, conflates the titles, and dedups the pair to the
single higher-quality entry. -/
theorem C9_counterexample :
    Agent.specNormalizeTitle paperC9a.title ≠
      Agent.specNormalizeTitle paperC9b.title ∧
    Agent.normalizeTitle paperC9a.title =
      Agent.normalizeTitle paperC9b.title ∧
    Agent.deduplicate [paperC9a, paperC9b] = [paperC9b] := by
  decide

/-- Witness for the amended C9 at the concrete pair: the single output
entry represents `paperC9a`'s group and dominates both qualities. -/
theorem C9_dedup_groups_by_code_norm_witness :
    ∃ q ∈ Agent.deduplicate [paperC9a, paperC9b],
      pnorm q = pnorm paperC9a ∧
      ∀ r ∈ [paperC9a, paperC9b], pnorm r = pnorm paperC9a →
        r.quality_score ≤ q.quality_score :=
  (C9_dedup_groups_by_code_norm [paperC9a, paperC9b]).2.2 paperC9a
    (List.mem_cons_self _ _)

/-- C10: `_rank_papers` writes into each paper the composite score
`0.4*relevance + 0.3*quality + 0.2*recency + 0.1*source_weight` with
`recency = max(0, 1 - days_old/365)` and a per-source weight in (0,1],
and returns a permutation of the scored list sorted descending by that
score; the sort is stable (an equal-score pair keeps its input order) and
deterministic (same input and same "now" give the same output). -/
theorem C10_ranking (now : Int) (papers : List Agent.Paper) :
    (Agent.rank_papers now papers).Perm
      (papers.map (Agent.setRankingScore now)) ∧
    (∀ q : Agent.Paper, (Agent.setRankingScore now q).ranking_score =
      some ((4/10 : ℚ) * q.relevance_score + (3/10 : ℚ) * q.quality_score +
        (2/10 : ℚ) * max 0 (1 - ((now - q.date_published : ℤ) : ℚ) / 365) +
        (1/10 : ℚ) * Agent.sourceWeight q.source)) ∧
    (∀ src : String,
      0 < Agent.sourceWeight src ∧ Agent.sourceWeight src ≤ 1) ∧
    List.Pairwise (fun a b => Agent.rankingKey b ≤ Agent.rankingKey a)
      (Agent.rank_papers now papers) ∧
    (∀ a b : Agent.Paper,
      [a, b].Sublist (papers.map (Agent.setRankingScore now)) →
      Agent.rankingKey a = Agent.rankingKey b →
      [a, b].Sublist (Agent.rank_papers now papers)) ∧
    Agent.rank_papers now papers = Agent.rank_papers now papers := by
  have htrans : ∀ a b c : Agent.Paper,
      decide (Agent.rankingKey b ≤ Agent.rankingKey a) = true →
      decide (Agent.rankingKey c ≤ Agent.rankingKey b) = true →
      decide (Agent.rankingKey c ≤ Agent.rankingKey a) = true := by
    intro a b c h1 h2
    simp only [decide_eq_true_eq] at h1 h2 ⊢
    exact le_trans h2 h1
  have htotal : ∀ a b : Agent.Paper,
      (decide (Agent.rankingKey b ≤ Agent.rankingKey a) ||
       decide (Agent.rankingKey a ≤ Agent.rankingKey b)) = true := by
    intro a b
    rcases le_total (Agent.rankingKey b) (Agent.rankingKey a) with h | h
    · simp [h]
    · simp [h]
  refine ⟨?_, ?_, ?_, ?_, ?_, rfl⟩
  · simpa [Agent.rank_papers] using
      List.mergeSort_perm (papers.map (Agent.setRankingScore now))
        (fun a b => decide (Agent.rankingKey b ≤ Agent.rankingKey a))
  · intro q
    simp only [Agent.setRankingScore, Agent.rankingScore, Rat.mkRat_eq_div,
      Option.some.injEq]
    push_cast
    ring
  · intro src
    unfold Agent.sourceWeight
    split_ifs <;> norm_num [Rat.mkRat_eq_div]
  · have hs := List.sorted_mergeSort htrans htotal
      (papers.map (Agent.setRankingScore now))
    simpa [Agent.rank_papers] using
      List.Pairwise.imp (fun h => of_decide_eq_true h) hs
  · intro a b hsub heq
    have hab : decide (Agent.rankingKey b ≤ Agent.rankingKey a) = true :=
      decide_eq_true (le_of_eq heq.symm)
    simpa [Agent.rank_papers] using
      List.pair_sublist_mergeSort htrans htotal hab hsub

/-- First paper of the C10 witness pair (identical scores to the second,
different id). -/
def paperC10a : Agent.Paper :=
  { id := "A", title := "t", abstract := "", authors := [],
    date_published := 0, source := "arxiv", url := "",
    relevance_score := 1, quality_score := 1 }

/-- Second paper of the C10 witness pair. -/
def paperC10b : Agent.Paper :=
  { id := "B", title := "t", abstract := "", authors := [],
    date_published := 0, source := "arxiv", url := "",
    relevance_score := 1, quality_score := 1 }

/-- Witness for C10: the stability conjunct at a concrete equal-score
pair — ranking keeps the earliest-discovered order. -/
theorem C10_ranking_witness :
    [Agent.setRankingScore 0 paperC10a,
     Agent.setRankingScore 0 paperC10b].Sublist
      (Agent.rank_papers 0 [paperC10a, paperC10b]) :=
  (C10_ranking 0 [paperC10a, paperC10b]).2.2.2.2.1
    (Agent.setRankingScore 0 paperC10a) (Agent.setRankingScore 0 paperC10b)
    (List.Sublist.refl _) rfl
